import Mathlib

/-!
Verification of the TreeListings Firestore client (`src/firebase/db.ts`)
against its natural-language specification.

The embedding models the document store as two key-indexed maps (the
`listings` collection and the `categories` collection), the body of
`uploadListing`'s `runTransaction` callback as a read snapshot plus a list
of buffered writes, and the client library's optimistic-concurrency
transaction loop (read set captured before writes, conflict detection on
the read documents, retry of the whole callback on conflict) as an
explicit recursion with an adversary standing for concurrently committed
transactions.
-/

namespace TreeListings

/-- A document of the `listings` collection, translated from the
`listingData` object literal built in `uploadListing`
(src/firebase/db.ts lines 101-111) and the `Listing` type.
`datePosted` is a timestamp modelled as a natural number. -/
structure ListingDoc where
  listingId : String
  sellerId : String
  title : String
  price : Int
  datePosted : Nat
  description : String
  categories : List String
  isListingActive : Bool
  imagePath : Option String
deriving Repr, DecidableEq

/-- The argument object of `uploadListing` (src/firebase/db.ts lines 64-82). -/
structure UploadArgs where
  sellerId : String
  title : String
  price : Int
  datePosted : Nat
  image : Option String
  description : String
  categories : List String
  isListingActive : Bool
deriving Repr, DecidableEq

/-- The visible state of the document store: the `listings` collection keyed
by document id, and the `categories` collection keyed by category key, each
category document reduced to its `countActiveListings` field (the only field
the code reads or writes). -/
structure Store where
  listings : String → Option ListingDoc
  categories : String → Option Nat

/-- The `listingData` object: every caller-supplied field plus
`listingId: documentRef.id`; the spread `...(uploadUrl && { imagePath: uploadUrl })`
adds `imagePath` only when `uploadUrl` is truthy (not `null`, not `""`). -/
def mkListingData (args : UploadArgs) (docId : String) (uploadUrl : Option String) :
    ListingDoc :=
  { listingId := docId
    sellerId := args.sellerId
    title := args.title
    price := args.price
    datePosted := args.datePosted
    description := args.description
    categories := args.categories
    isListingActive := args.isListingActive
    imagePath := match uploadUrl with
      | some u => if u = "" then none else some u
      | none => none }

/-- A buffered transaction write:
`transaction.set(documentRef, listingData)` (line 113),
`transaction.update(categoryRef, { countActiveListings: increment(1) })`
(line 118), or `transaction.set(categoryRef, { countActiveListings: 1 })`
(line 120). -/
inductive Write where
  | setListing (docId : String) (data : ListingDoc)
  | catIncr (key : String)
  | catCreate (key : String)
deriving Repr, DecidableEq

/-- Applying one committed write to the store.  `catIncr` is the store-side
atomic increment of `countActiveListings`; `catCreate` is a plain set that
leaves the document holding `countActiveListings = 1`. -/
def applyWrite (s : Store) (w : Write) : Store :=
  match w with
  | .setListing d data =>
      { s with listings := fun k => if k = d then some data else s.listings k }
  | .catIncr c =>
      { s with categories := fun k =>
          if k = c then some ((s.categories c).getD 0 + 1) else s.categories k }
  | .catCreate c =>
      { s with categories := fun k => if k = c then some 1 else s.categories k }

/-- The per-category branch of lines 115-122: the read snapshot `s` decides
increment-if-exists versus create-with-1. -/
def catWrite (s : Store) (c : String) : Write :=
  if (s.categories c).isSome then .catIncr c else .catCreate c

/-- The full write list of one transaction attempt, as issued by the callback
after all reads: the listing `set` (line 113) followed by one category write
per element of `categories`, in order (lines 115-122).  The decisions are a
function of the read snapshot `s` only: every read precedes every write. -/
def txWrites (s : Store) (docId : String) (uploadUrl : Option String)
    (args : UploadArgs) : List Write :=
  .setListing docId (mkListingData args docId uploadUrl) ::
    args.categories.map (catWrite s)

/-- Folding the category writes decided against snapshot `s` into a store `t`. -/
def applyCatWrites (s : Store) (l : List String) (t : Store) : Store :=
  (l.map (catWrite s)).foldl applyWrite t

/-- Committing one attempt's writes, decided against read snapshot `s`,
into the store `t` current at commit time. -/
def commitWrites (s : Store) (docId : String) (uploadUrl : Option String)
    (args : UploadArgs) (t : Store) : Store :=
  (txWrites s docId uploadUrl args).foldl applyWrite t

/-- The effect of an uncontended transaction: read and commit against the
same store. -/
def commitBody (args : UploadArgs) (s : Store) (docId : String)
    (uploadUrl : Option String) : Store :=
  commitWrites s docId uploadUrl args s

/-- Conflict detection of the store's optimistic transaction: the commit is
rejected when any document of the read set (the category documents fetched
by `transaction.get` on lines 96-98) was modified between the read and the
commit. -/
def hasConflict (cats : List String) (s t : Store) : Bool :=
  cats.any fun c => decide (s.categories c ≠ t.categories c)

/-- How a rejected `runTransaction` surfaces: the callback threw (here only
the image upload can throw, `uploadFailed`), or the client exhausted its
bounded retry budget on repeated conflicts. -/
inductive TxError where
  | uploadFailed
  | retriesExhausted
deriving Repr, DecidableEq

/-- Result of one whole `uploadListing` call, with ghost fields recording the
callback's side effects: how many times the callback body was entered, which
document ids were passed to the image uploader, and which listing ids were
allocated by `doc(collectionRef)`. -/
structure RunOutcome where
  store : Store
  result : Except TxError Unit
  attempts : Nat
  uploadCalls : List String
  idsAllocated : List String

/-- The `if (image)` guard of lines 88-90: with no image the uploader is not
called; with an image, `uploadImageAsync(image, documentRef.id)` either
yields a URL or throws. -/
def uploadStep (uploader : String → String → Except Unit String)
    (image : Option String) (docId : String) : Except Unit (Option String) :=
  match image with
  | none => .ok none
  | some img => (uploader img docId).map some

/-- The document ids the uploader was called with during one callback run. -/
def uploadLog (image : Option String) (docId : String) : List String :=
  match image with
  | none => []
  | some _ => [docId]

/-- The `runTransaction` call of `uploadListing` (lines 83-123) under the
store's optimistic-concurrency contract.  Each attempt runs the whole
callback: `doc(collectionRef)` allocates a fresh id (`ids n` for attempt
`n`), the image (if any) is uploaded, the category documents are read from
the committed store `s`, and the writes are buffered.  Concurrent commits by
other clients during the attempt are `adv n`; the commit succeeds only if no
read document changed (`hasConflict`) and the client did not abort the
attempt for a transient reason (`spurious`); otherwise the whole callback is
retried.  `fuel` is the client's bounded retry budget. -/
def runTx (uploader : String → String → Except Unit String)
    (ids : Nat → String) (args : UploadArgs)
    (adv : Nat → Store → Store) (spurious : Nat → Bool) :
    Nat → Nat → Store → RunOutcome
  | 0, _, s =>
      { store := s, result := .error .retriesExhausted, attempts := 0,
        uploadCalls := [], idsAllocated := [] }
  | fuel + 1, n, s =>
      let docId := ids n
      match uploadStep uploader args.image docId with
      | .error _ =>
          { store := s, result := .error .uploadFailed, attempts := 1,
            uploadCalls := uploadLog args.image docId, idsAllocated := [docId] }
      | .ok url =>
          let t := adv n s
          if hasConflict args.categories s t || spurious n then
            let rest := runTx uploader ids args adv spurious fuel (n + 1) t
            { store := rest.store, result := rest.result,
              attempts := rest.attempts + 1,
              uploadCalls := uploadLog args.image docId ++ rest.uploadCalls,
              idsAllocated := docId :: rest.idsAllocated }
          else
            { store := commitWrites s docId url args t, result := .ok (),
              attempts := 1, uploadCalls := uploadLog args.image docId,
              idsAllocated := [docId] }

/-- Scheduler events for two concurrent `uploadListing` transactions:
transaction `i` captures its read snapshot, or tries to commit. -/
inductive TxEvent where
  | read1
  | commit1
  | read2
  | commit2
deriving Repr, DecidableEq

/-- Joint state of two concurrent `uploadListing` transactions over one
store: each holds the snapshot of its current attempt (none before its
read), an attempt counter driving its id allocation, and a completion
flag. -/
structure TwoTxState where
  store : Store
  snap1 : Option Store
  snap2 : Option Store
  n1 : Nat
  n2 : Nat
  done1 : Bool
  done2 : Bool

def initTwoTx (s : Store) : TwoTxState :=
  { store := s, snap1 := none, snap2 := none, n1 := 0, n2 := 0,
    done1 := false, done2 := false }

/-- One scheduler step.  A read captures the current committed store as the
transaction's snapshot.  A commit re-checks the read set against the current
store: on conflict the attempt is discarded and the callback will rerun
(snapshot cleared, attempt counter advanced); otherwise the attempt's writes
— computed by the `uploadListing` callback from the snapshot — are applied
atomically.  Events for a finished or not-yet-read transaction are no-ops. -/
def stepTx (a1 a2 : UploadArgs) (ids1 ids2 : Nat → String)
    (st : TwoTxState) : TxEvent → TwoTxState
  | .read1 =>
      if st.done1 then st else
      match st.snap1 with
      | some _ => st
      | none => { st with snap1 := some st.store }
  | .commit1 =>
      if st.done1 then st else
      match st.snap1 with
      | none => st
      | some sn =>
          if hasConflict a1.categories sn st.store then
            { st with snap1 := none, n1 := st.n1 + 1 }
          else
            { st with store := commitWrites sn (ids1 st.n1) none a1 st.store,
                      done1 := true, snap1 := none }
  | .read2 =>
      if st.done2 then st else
      match st.snap2 with
      | some _ => st
      | none => { st with snap2 := some st.store }
  | .commit2 =>
      if st.done2 then st else
      match st.snap2 with
      | none => st
      | some sn =>
          if hasConflict a2.categories sn st.store then
            { st with snap2 := none, n2 := st.n2 + 1 }
          else
            { st with store := commitWrites sn (ids2 st.n2) none a2 st.store,
                      done2 := true, snap2 := none }

/-- Running a whole schedule of interleaved events. -/
def runEvents (a1 a2 : UploadArgs) (ids1 ids2 : Nat → String)
    (st : TwoTxState) (evs : List TxEvent) : TwoTxState :=
  evs.foldl (stepTx a1 a2 ids1 ids2) st

/-- A document of the `users` collection (`User` in src/types). -/
structure UserDoc where
  email : String
  fullName : String
  dateCreated : Nat
  id : String
  phone : Option String
deriving Repr, DecidableEq

/-- Outcome of one `getDoc` round trip against the store: the document
exists with data `a`, the document is absent, or the store call failed
(connectivity / permission — the promise rejects). -/
inductive FetchOutcome (α : Type) where
  | found (a : α)
  | missing
  | failure
deriving Repr, DecidableEq

/-- `getDocument` (src/firebase/db.ts lines 23-32): returns the data when the
snapshot exists, `null` when absent; it has no catch, so a store failure
propagates as a rejected promise, distinct from the `null` of absence. -/
def getDocument {α : Type} (r : FetchOutcome α) : Except Unit (Option α) :=
  match r with
  | .found a => .ok (some a)
  | .missing => .ok none
  | .failure => .error ()

/-- `getUserProfile` (src/firebase/db.ts lines 126-140): returns the user when
the snapshot exists, `null` when absent, and — because of the
`catch (error) ... return null` — also `null` when the store call fails. -/
def getUserProfile (r : FetchOutcome UserDoc) : Option UserDoc :=
  match r with
  | .found u => some u
  | .missing => none
  | .failure => none

/-- `getAllListings` (src/firebase/db.ts lines 146-161): the query
`where("sellerId", "!=", id)` keeps exactly the documents whose `sellerId`
differs from `id`, and the `reduce` keys the result mapping by document id.
The input is the collection as a list of (document id, data) pairs. -/
def getAllListings (excl : String) (docs : List (String × ListingDoc)) :
    List (String × ListingDoc) :=
  docs.filter fun d => decide (d.2.sellerId ≠ excl)

/-- The snapshot mapping delivered to `setListings` by the listener of
`createPostListingListener` (src/firebase/db.ts lines 162-184): the same
`sellerId != userId` query and the same id-keyed `reduce`. -/
def listenerSnapshot (userId : String) (docs : List (String × ListingDoc)) :
    List (String × ListingDoc) :=
  docs.filter fun d => decide (d.2.sellerId ≠ userId)

/-! Concrete stores, arguments and collaborators used to instantiate the
theorems below on the spec's own scenarios. -/

/-- A store with one category document: `BIKE` with `countActiveListings = 1`. -/
def demoStore : Store :=
  { listings := fun _ => none
    categories := fun k => if k = "BIKE" then some 1 else none }

/-- A store with no documents at all. -/
def emptyStore : Store :=
  { listings := fun _ => none
    categories := fun _ => none }

/-- The spec's second publish scenario: categories `["BIKE", "ELEC"]`, no image. -/
def demoArgs : UploadArgs :=
  { sellerId := "seller-1", title := "Bike", price := 150, datePosted := 0,
    image := none, description := "a road bike", categories := ["BIKE", "ELEC"],
    isListingActive := true }

/-- A publish with an image attached and a single category. -/
def demoArgsImg : UploadArgs :=
  { sellerId := "seller-1", title := "Bike", price := 150, datePosted := 0,
    image := some "img.png", description := "a road bike",
    categories := ["BIKE"], isListingActive := true }

/-- A publish violating every spec precondition: empty title, price 0, empty
category list, empty ownerId. -/
def invalidArgs : UploadArgs :=
  { sellerId := "", title := "", price := 0, datePosted := 0,
    image := none, description := "", categories := [],
    isListingActive := true }

/-- An id allocator handing out `L0`, `L1`, ... per attempt. -/
def demoIds : Nat → String
  | 0 => "L0"
  | 1 => "L1"
  | _ => "L9"

/-- A second, disjoint id allocator. -/
def demoIds2 : Nat → String
  | 0 => "M0"
  | 1 => "M1"
  | _ => "M9"

/-- An uploader that always succeeds, keying the URL by the owning id. -/
def okUploader : String → String → Except Unit String :=
  fun _ d => .ok (String.append "https://cdn/" d)

/-- An uploader whose upload always fails. -/
def failUploader : String → String → Except Unit String :=
  fun _ _ => .error ()

/-- No concurrent commits from other clients. -/
def idAdv : Nat → Store → Store := fun _ t => t

/-- No transient client-side aborts. -/
def noSpurious : Nat → Bool := fun _ => false

/-- A concurrent commit that bumps the `BIKE` counter during the first
attempt, conflicting with any transaction that read it. -/
def bikeConflictAdv : Nat → Store → Store := fun n t =>
  if n = 0 then
    { t with categories := fun k =>
        if k = "BIKE" then some ((t.categories "BIKE").getD 0 + 1)
        else t.categories k }
  else t

/-- A concurrent commit that sets the `ELEC` counter to 5 during the first
attempt, conflicting with any transaction that read `ELEC` while leaving
`BIKE` untouched. -/
def elecAdv : Nat → Store → Store := fun n t =>
  if n = 0 then
    { t with categories := fun k =>
        if k = "ELEC" then some 5 else t.categories k }
  else t

/-- A publish whose category list repeats `BIKE` (existing) and `NEW`
(absent) twice each. -/
def dupArgs : UploadArgs :=
  { sellerId := "seller-1", title := "Bike", price := 150, datePosted := 0,
    image := none, description := "a road bike",
    categories := ["BIKE", "BIKE", "NEW", "NEW"], isListingActive := true }

/-- First of two concurrent publishes touching the same new category. -/
def wArgs1 : UploadArgs :=
  { sellerId := "s1", title := "Bike A", price := 100, datePosted := 0,
    image := none, description := "", categories := ["BIKE"],
    isListingActive := true }

/-- Second of two concurrent publishes touching the same new category. -/
def wArgs2 : UploadArgs :=
  { sellerId := "s2", title := "Bike B", price := 200, datePosted := 0,
    image := none, description := "", categories := ["BIKE"],
    isListingActive := true }

/-- The counter value a category key must hold once the given two concurrent
publishes for it have committed. -/
def countOf (d1 d2 : Bool) : Option Nat :=
  match d1, d2 with
  | false, false => none
  | true, false => some 1
  | false, true => some 1
  | true, true => some 2

/-- A listing document owned by `alice`. -/
def aliceDoc : ListingDoc :=
  { listingId := "d1", sellerId := "alice", title := "Lamp", price := 10,
    datePosted := 0, description := "", categories := ["HOME"],
    isListingActive := true, imagePath := none }

/-- A listing document owned by `bob`. -/
def bobDoc : ListingDoc :=
  { listingId := "d2", sellerId := "bob", title := "Desk", price := 40,
    datePosted := 0, description := "", categories := ["HOME"],
    isListingActive := true, imagePath := none }

/-- A `listings` collection with two of alice's documents and one of bob's. -/
def demoDocs : List (String × ListingDoc) :=
  [("d1", aliceDoc), ("d2", bobDoc),
    ("d3", { aliceDoc with listingId := "d3", title := "Chair" })]

theorem applyWrite_setListing_categories (s : Store) (d : String)
    (data : ListingDoc) :
    (applyWrite s (.setListing d data)).categories = s.categories := rfl

theorem applyWrite_catWrite_other (t s : Store) (c x : String) (h : c ≠ x) :
    (applyWrite t (catWrite s x)).categories c = t.categories c := by
  unfold catWrite
  by_cases hx : (s.categories x).isSome <;> simp [hx, applyWrite, h]

theorem applyWrite_catWrite_listings (t s : Store) (x : String) :
    (applyWrite t (catWrite s x)).listings = t.listings := by
  unfold catWrite
  by_cases hx : (s.categories x).isSome <;> simp [hx, applyWrite]

theorem applyCatWrites_nil (s t : Store) : applyCatWrites s [] t = t := rfl

theorem applyCatWrites_cons (s t : Store) (x : String) (xs : List String) :
    applyCatWrites s (x :: xs) t =
      applyCatWrites s xs (applyWrite t (catWrite s x)) := rfl

theorem applyCatWrites_listings (s : Store) (l : List String) (t : Store) :
    (applyCatWrites s l t).listings = t.listings := by
  induction l generalizing t with
  | nil => rfl
  | cons x xs ih =>
      rw [applyCatWrites_cons, ih, applyWrite_catWrite_listings]

/-- The value of one category counter after all category writes of one
attempt are applied: untouched keys keep their value; a key occurring
`n ≥ 1` times is incremented `n` times if the read snapshot had it, and
ends at 1 (each occurrence is a blind create) if the snapshot lacked it. -/
theorem applyCatWrites_categories (s : Store) (l : List String) (t : Store)
    (c : String) :
    (applyCatWrites s l t).categories c =
      if l.count c = 0 then t.categories c
      else if (s.categories c).isSome then
        some ((t.categories c).getD 0 + l.count c)
      else some 1 := by
  induction l generalizing t with
  | nil => simp [applyCatWrites_nil]
  | cons x xs ih =>
      rw [applyCatWrites_cons, ih]
      by_cases hxc : c = x
      · subst hxc
        have hcount : (c :: xs).count c = xs.count c + 1 := by
          simp [List.count_cons]
        by_cases hs : (s.categories c).isSome
        · have hval : (applyWrite t (catWrite s c)).categories c =
              some ((t.categories c).getD 0 + 1) := by
            simp [catWrite, hs, applyWrite]
          rw [hcount, hval]
          rcases Nat.eq_zero_or_pos (xs.count c) with h0 | hpos
          · simp [h0, hs]
          · have hne : xs.count c ≠ 0 := Nat.pos_iff_ne_zero.mp hpos
            simp only [hne, if_neg hne, hs, if_pos, Option.getD_some]
            simp [Nat.add_assoc, Nat.add_comm 1 (xs.count c)]
        · have hval : (applyWrite t (catWrite s c)).categories c = some 1 := by
            simp [catWrite, hs, applyWrite]
          rw [hcount, hval]
          rcases Nat.eq_zero_or_pos (xs.count c) with h0 | hpos
          · simp [h0, hs]
          · have hne : xs.count c ≠ 0 := Nat.pos_iff_ne_zero.mp hpos
            simp [hne, hs]
      · have hcount : (x :: xs).count c = xs.count c := by
          simp [List.count_cons, hxc]
        rw [hcount, applyWrite_catWrite_other t s c x hxc]

theorem commitWrites_eq (s : Store) (docId : String) (url : Option String)
    (args : UploadArgs) (t : Store) :
    commitWrites s docId url args t =
      applyCatWrites s args.categories
        (applyWrite t (.setListing docId (mkListingData args docId url))) := by
  rfl

/-- C1: for every category key of a published listing, the transaction —
whose category reads all precede its writes, `txWrites` being a function of
the read snapshot only — issues the atomic-increment write when the read
found the aggregate and the create-with-1 write when it did not, so the
committed counter is the read value plus one (one, when absent). -/
theorem publish_category_increment_or_create (args : UploadArgs) (s : Store)
    (docId : String) (url : Option String) (c : String)
    (hnd : args.categories.Nodup) (hc : c ∈ args.categories) :
    (if (s.categories c).isSome then
        Write.catIncr c ∈ txWrites s docId url args
      else Write.catCreate c ∈ txWrites s docId url args) ∧
    (commitBody args s docId url).categories c =
      some ((s.categories c).getD 0 + 1) := by
  have hcount : args.categories.count c = 1 := List.count_eq_one_of_mem hnd hc
  constructor
  · have hmem : catWrite s c ∈ args.categories.map (catWrite s) :=
      List.mem_map_of_mem (catWrite s) hc
    by_cases hs : (s.categories c).isSome
    · rw [if_pos hs]
      have hw : catWrite s c = Write.catIncr c := by simp [catWrite, hs]
      rw [hw] at hmem
      exact List.mem_cons_of_mem _ hmem
    · rw [if_neg hs]
      have hw : catWrite s c = Write.catCreate c := by simp [catWrite, hs]
      rw [hw] at hmem
      exact List.mem_cons_of_mem _ hmem
  · rw [commitBody, commitWrites_eq, applyCatWrites_categories,
        applyWrite_setListing_categories, hcount]
    by_cases hs : (s.categories c).isSome
    · simp [hs]
    · rw [Option.not_isSome_iff_eq_none] at hs
      simp [hs]

/-- The spec's scenario for C1: publishing with categories `["BIKE", "ELEC"]`
against a store where `BIKE` has count 1 and `ELEC` is absent ends with
`BIKE` at 2 and `ELEC` created at 1. -/
theorem publish_category_increment_or_create_witness :
    (commitBody demoArgs demoStore "L0" none).categories "BIKE" = some 2 ∧
    (commitBody demoArgs demoStore "L0" none).categories "ELEC" = some 1 := by
  have h1 := publish_category_increment_or_create demoArgs demoStore "L0" none
    "BIKE" (by decide) (by decide)
  have h2 := publish_category_increment_or_create demoArgs demoStore "L0" none
    "ELEC" (by decide) (by decide)
  refine ⟨?_, ?_⟩
  · rw [h1.2, show (demoStore.categories "BIKE").getD 0 + 1 = 2 from by decide]
  · rw [h2.2, show (demoStore.categories "ELEC").getD 0 + 1 = 1 from by decide]

/-- C10: `uploadListing` does not deduplicate `categories`: a key occurring
`n > 1` times gets `n` increment writes when its aggregate exists (total
`+n`), while if absent each occurrence is a create-with-1, leaving the final
count at 1. -/
theorem no_category_dedup (args : UploadArgs) (s : Store) (docId : String)
    (url : Option String) (c : String) (hn : 1 < args.categories.count c) :
    (commitBody args s docId url).categories c =
      match s.categories c with
      | some v => some (v + args.categories.count c)
      | none => some 1 := by
  have hne : args.categories.count c ≠ 0 := by omega
  rw [commitBody, commitWrites_eq, applyCatWrites_categories,
      applyWrite_setListing_categories]
  cases hs : s.categories c with
  | some v => simp [hne, hs]
  | none => simp [hne, hs]

/-- Duplicate-category instance for C10: categories
`["BIKE", "BIKE", "NEW", "NEW"]` against a store where `BIKE` has count 1
and `NEW` is absent end with `BIKE` at 3 and `NEW` at 1. -/
theorem no_category_dedup_witness :
    (commitBody dupArgs demoStore "L0" none).categories "BIKE" = some 3 ∧
    (commitBody dupArgs demoStore "L0" none).categories "NEW" = some 1 := by
  have h1 := no_category_dedup dupArgs demoStore "L0" none "BIKE" (by decide)
  have h2 := no_category_dedup dupArgs demoStore "L0" none "NEW" (by decide)
  rw [h1, h2]
  exact ⟨by decide, by decide⟩

theorem hasConflict_self (l : List String) (s : Store) :
    hasConflict l s s = false := by
  simp [hasConflict]

/-- C5: for every successful `uploadListing`, each (non-repeated) category of
the listing ends exactly one above its value in the committed store the call
started from, for any number of conflict- or transient-aborted attempts
before the committing one — retried attempts are discarded whole, so no
retry double-increments a counter.  The adversary may commit arbitrary
concurrent writes (in particular ones that conflict and force retries) as
long as it leaves the measured counter itself alone. -/
theorem retry_no_double_increment
    (uploader : String → String → Except Unit String) (ids : Nat → String)
    (args : UploadArgs) (adv : Nat → Store → Store) (spurious : Nat → Bool)
    (c : String) (hnd : args.categories.Nodup) (hc : c ∈ args.categories)
    (hadv : ∀ m t, (adv m t).categories c = t.categories c) :
    ∀ (fuel n : Nat) (s : Store),
      (runTx uploader ids args adv spurious fuel n s).result = .ok () →
      (runTx uploader ids args adv spurious fuel n s).store.categories c =
        some ((s.categories c).getD 0 + 1) := by
  intro fuel
  induction fuel with
  | zero =>
      intro n s h
      simp [runTx] at h
  | succ fuel ih =>
      intro n s hok
      rw [runTx] at hok ⊢
      cases hu : uploadStep uploader args.image (ids n) with
      | error e =>
          rw [hu] at hok
          simp at hok
      | ok url =>
          rw [hu] at hok
          dsimp only at hok ⊢
          by_cases hcond :
              (hasConflict args.categories s (adv n s) || spurious n) = true
          · simp only [hcond, if_true] at hok ⊢
            rw [ih (n + 1) (adv n s) hok, hadv n s]
          · simp only [Bool.not_eq_true] at hcond
            simp only [hcond, Bool.false_eq_true, if_false] at hok ⊢
            have hcount : args.categories.count c = 1 :=
              List.count_eq_one_of_mem hnd hc
            rw [commitWrites_eq, applyCatWrites_categories,
                applyWrite_setListing_categories, hcount, hadv n s]
            by_cases hs : (s.categories c).isSome
            · simp [hs]
            · rw [Option.not_isSome_iff_eq_none] at hs
              simp [hs]

/-- Retry instance for C5: a concurrent commit to `ELEC` during the first
attempt conflicts with the read set of a publish with categories
`["BIKE", "ELEC"]` and forces a retry; the committed `BIKE` count is still
exactly one above its initial value 1. -/
theorem retry_no_double_increment_witness :
    (runTx okUploader demoIds demoArgs elecAdv noSpurious 3 0 demoStore).result =
      Except.ok () ∧
    (runTx okUploader demoIds demoArgs elecAdv noSpurious 3 0
        demoStore).store.categories "BIKE" = some 2 := by
  have hadv : ∀ m t, (elecAdv m t).categories "BIKE" = t.categories "BIKE" := by
    intro m t
    cases m <;> simp [elecAdv]
  have h := retry_no_double_increment okUploader demoIds demoArgs elecAdv
    noSpurious "BIKE" (by decide) (by decide) hadv 3 0 demoStore rfl
  refine ⟨rfl, ?_⟩
  rw [h, show (demoStore.categories "BIKE").getD 0 + 1 = 2 from by decide]

theorem countOf_comm (d1 d2 : Bool) : countOf d1 d2 = countOf d2 d1 := by
  cases d1 <;> cases d2 <;> rfl

theorem commit_categories_singleton (a : UploadArgs) (k docId : String)
    (sn t : Store) (hk : a.categories = [k]) :
    (commitWrites sn docId none a t).categories k =
      if (sn.categories k).isSome then some ((t.categories k).getD 0 + 1)
      else some 1 := by
  rw [commitWrites_eq, applyCatWrites_categories,
      applyWrite_setListing_categories, hk]
  simp

/-- One no-conflict commit of a single-category publish moves the joint
counter from the "d of two done" shape to the "one more done" shape. -/
theorem commit_updates_count (a : UploadArgs) (k docId : String)
    (sn t : Store) (hk : a.categories = [k]) (d : Bool)
    (heq : sn.categories k = t.categories k)
    (hinv : t.categories k = countOf false d) :
    (commitWrites sn docId none a t).categories k = countOf true d := by
  rw [commit_categories_singleton a k docId sn t hk, heq, hinv]
  cases d with
  | false => simp [countOf]
  | true => simp [countOf]

/-- Every scheduler step preserves the joint-count invariant for two
concurrent single-category publishes of the same new key. -/
theorem stepTx_inv (a1 a2 : UploadArgs) (ids1 ids2 : Nat → String)
    (k : String) (h1 : a1.categories = [k]) (h2 : a2.categories = [k])
    (st : TwoTxState) (e : TxEvent)
    (hinv : st.store.categories k = countOf st.done1 st.done2) :
    (stepTx a1 a2 ids1 ids2 st e).store.categories k =
      countOf (stepTx a1 a2 ids1 ids2 st e).done1
        (stepTx a1 a2 ids1 ids2 st e).done2 := by
  cases e with
  | read1 =>
      cases hd : st.done1 with
      | true => simpa [stepTx, hd] using hinv
      | false =>
          cases hs : st.snap1 with
          | some sn => simpa [stepTx, hd, hs] using hinv
          | none => simpa [stepTx, hd, hs] using hinv
  | read2 =>
      cases hd : st.done2 with
      | true => simpa [stepTx, hd] using hinv
      | false =>
          cases hs : st.snap2 with
          | some sn => simpa [stepTx, hd, hs] using hinv
          | none => simpa [stepTx, hd, hs] using hinv
  | commit1 =>
      cases hd : st.done1 with
      | true => simpa [stepTx, hd] using hinv
      | false =>
          cases hs : st.snap1 with
          | none => simpa [stepTx, hd, hs] using hinv
          | some sn =>
              cases hc : hasConflict a1.categories sn st.store with
              | true => simpa [stepTx, hd, hs, hc] using hinv
              | false =>
                  have heq : sn.categories k = st.store.categories k := by
                    rw [h1] at hc
                    simpa [hasConflict] using hc
                  have hinv2 : st.store.categories k = countOf false st.done2 := by
                    rw [hinv, hd]
                  have hmain := commit_updates_count a1 k (ids1 st.n1) sn
                    st.store h1 st.done2 heq hinv2
                  simpa [stepTx, hd, hs, hc] using hmain
  | commit2 =>
      cases hd : st.done2 with
      | true => simpa [stepTx, hd] using hinv
      | false =>
          cases hs : st.snap2 with
          | none => simpa [stepTx, hd, hs] using hinv
          | some sn =>
              cases hc : hasConflict a2.categories sn st.store with
              | true => simpa [stepTx, hd, hs, hc] using hinv
              | false =>
                  have heq : sn.categories k = st.store.categories k := by
                    rw [h2] at hc
                    simpa [hasConflict] using hc
                  have hinv2 : st.store.categories k = countOf false st.done1 := by
                    rw [hinv, hd, countOf_comm]
                  have hmain := commit_updates_count a2 k (ids2 st.n2) sn
                    st.store h2 st.done1 heq hinv2
                  rw [countOf_comm] at hmain
                  simpa [stepTx, hd, hs, hc] using hmain

theorem runEvents_inv (a1 a2 : UploadArgs) (ids1 ids2 : Nat → String)
    (k : String) (h1 : a1.categories = [k]) (h2 : a2.categories = [k])
    (evs : List TxEvent) (st : TwoTxState)
    (hinv : st.store.categories k = countOf st.done1 st.done2) :
    (runEvents a1 a2 ids1 ids2 st evs).store.categories k =
      countOf (runEvents a1 a2 ids1 ids2 st evs).done1
        (runEvents a1 a2 ids1 ids2 st evs).done2 := by
  induction evs generalizing st with
  | nil => exact hinv
  | cons e evs ih =>
      exact ih (stepTx a1 a2 ids1 ids2 st e)
        (stepTx_inv a1 a2 ids1 ids2 k h1 h2 st e hinv)

/-- C2: when two concurrent publishes of the same new single category key
both run to completion under any interleaving of their read and commit
steps, the store's conflict check on the read aggregate forces every stale
attempt to retry, and the committed counter ends at exactly 2 — no lost
update. -/
theorem concurrent_publish_no_lost_update (a1 a2 : UploadArgs)
    (ids1 ids2 : Nat → String) (k : String)
    (h1 : a1.categories = [k]) (h2 : a2.categories = [k])
    (s0 : Store) (h0 : s0.categories k = none) (evs : List TxEvent)
    (hd1 : (runEvents a1 a2 ids1 ids2 (initTwoTx s0) evs).done1 = true)
    (hd2 : (runEvents a1 a2 ids1 ids2 (initTwoTx s0) evs).done2 = true) :
    (runEvents a1 a2 ids1 ids2 (initTwoTx s0) evs).store.categories k =
      some 2 := by
  have h := runEvents_inv a1 a2 ids1 ids2 k h1 h2 evs (initTwoTx s0)
    (by simpa [initTwoTx, countOf] using h0)
  rw [h, hd1, hd2]
  rfl

/-- Interleaving instance for C2: both transactions read the empty store;
the first commits and creates `BIKE = 1`; the second's commit conflicts, it
re-reads, takes the increment branch and commits `BIKE = 2`. -/
theorem concurrent_publish_no_lost_update_witness :
    (runEvents wArgs1 wArgs2 demoIds demoIds2 (initTwoTx emptyStore)
      [TxEvent.read1, TxEvent.read2, TxEvent.commit1, TxEvent.commit2,
        TxEvent.read2, TxEvent.commit2]).store.categories "BIKE" =
      some 2 := by
  exact concurrent_publish_no_lost_update wArgs1 wArgs2 demoIds demoIds2
    "BIKE" rfl rfl emptyStore rfl _ rfl rfl

/-- C3 counterexample: the claim says a failed asset upload means "the
atomic transaction is never entered", but `uploadImageAsync` is called
inside the `runTransaction` callback, so with an always-failing uploader the
callback is still entered (exactly once, and the id for the attempt is
allocated). -/
theorem upload_failure_still_enters_transaction :
    (runTx failUploader demoIds demoArgsImg idAdv noSpurious 3 0
        demoStore).attempts = 1 ∧
    (runTx failUploader demoIds demoArgsImg idAdv noSpurious 3 0
        demoStore).attempts ≠ 0 ∧
    (runTx failUploader demoIds demoArgsImg idAdv noSpurious 3 0
        demoStore).idsAllocated = ["L0"] := by
  exact ⟨rfl, by decide, by decide⟩

/-- C3 amended: when the asset upload fails, the failure is surfaced to the
caller and no write becomes visible — the store is returned exactly as it
was — but the transaction callback is entered (once) rather than never,
because the upload happens inside it. -/
theorem upload_failure_aborts_without_write
    (uploader : String → String → Except Unit String) (ids : Nat → String)
    (args : UploadArgs) (adv : Nat → Store → Store) (spurious : Nat → Bool)
    (fuel n : Nat) (s : Store) (img : String)
    (himg : args.image = some img)
    (hfail : ∀ d, uploader img d = .error ())
    (hfuel : 0 < fuel) :
    (runTx uploader ids args adv spurious fuel n s).result =
        .error .uploadFailed ∧
    (runTx uploader ids args adv spurious fuel n s).store = s ∧
    (runTx uploader ids args adv spurious fuel n s).attempts = 1 := by
  cases fuel with
  | zero => exact absurd hfuel (by simp)
  | succ fuel =>
      have hu : uploadStep uploader args.image (ids n) = .error () := by
        rw [himg]
        simp [uploadStep, hfail, Except.map]
      rw [runTx, hu]
      exact ⟨rfl, rfl, rfl⟩

/-- Failing-upload instance for C3: the error is surfaced, the `BIKE`
counter is untouched and the callback ran once. -/
theorem upload_failure_aborts_without_write_witness :
    (runTx failUploader demoIds demoArgsImg idAdv noSpurious 3 0
        demoStore).result = Except.error TxError.uploadFailed ∧
    (runTx failUploader demoIds demoArgsImg idAdv noSpurious 3 0
        demoStore).store.categories "BIKE" = some 1 ∧
    (runTx failUploader demoIds demoArgsImg idAdv noSpurious 3 0
        demoStore).attempts = 1 := by
  have h := upload_failure_aborts_without_write failUploader demoIds
    demoArgsImg idAdv noSpurious 3 0 demoStore "img.png" rfl (fun d => rfl)
    (by decide)
  refine ⟨h.1, ?_, h.2.2⟩
  rw [h.2.1]
  decide

/-- C4 (code bug): `doc(collectionRef)` and `uploadImageAsync` run inside
the retried `runTransaction` callback, so a conflicting concurrent commit on
the first attempt makes the second attempt allocate a fresh listing id and
upload the asset a second time — the claim's "same id and asset reused, no
second allocation, no second upload" is violated and the first upload is
orphaned. -/
theorem retry_reallocates_id_and_reuploads :
    (runTx okUploader demoIds demoArgsImg bikeConflictAdv noSpurious 3 0
        demoStore).idsAllocated = ["L0", "L1"] ∧
    (runTx okUploader demoIds demoArgsImg bikeConflictAdv noSpurious 3 0
        demoStore).uploadCalls = ["L0", "L1"] ∧
    (runTx okUploader demoIds demoArgsImg bikeConflictAdv noSpurious 3 0
        demoStore).result = Except.ok () := by
  exact ⟨by decide, by decide, rfl⟩

/-- C6 counterexample: `uploadListing` resolves with the unit value on
success — and with the very same value under a different id allocator — so
the allocated listing id is not returned to the caller. -/
theorem publish_resolves_with_unit_not_id :
    (runTx okUploader demoIds demoArgs idAdv noSpurious 1 0 demoStore).result =
      Except.ok () ∧
    (runTx okUploader demoIds demoArgs idAdv noSpurious 1 0 demoStore).result =
      (runTx okUploader demoIds2 demoArgs idAdv noSpurious 1 0
        demoStore).result := by
  exact ⟨rfl, rfl⟩

theorem getLastD_default_irrelevant {α : Type} (l : List α) (a b : α)
    (h : l ≠ []) : l.getLastD a = l.getLastD b := by
  cases l with
  | nil => exact absurd rfl h
  | cons x xs => rfl

theorem getLastD_cons_ne_nil {α : Type} (x d : α) (l : List α) (h : l ≠ []) :
    (x :: l).getLastD d = l.getLastD d := by
  cases l with
  | nil => exact absurd rfl h
  | cons y ys => rfl

/-- C6 amended: on success `uploadListing` resolves with void (unit), not
with the listing id; the id of the committing attempt is recorded only in
the committed listing document, whose `listingId` field equals the id it is
stored under. -/
theorem publish_returns_void_listing_holds_id
    (uploader : String → String → Except Unit String) (ids : Nat → String)
    (args : UploadArgs) (adv : Nat → Store → Store) (spurious : Nat → Bool)
    (himg : args.image = none) :
    ∀ (fuel n : Nat) (s : Store),
      (runTx uploader ids args adv spurious fuel n s).result = .ok () →
      (runTx uploader ids args adv spurious fuel n s).idsAllocated ≠ [] ∧
      (runTx uploader ids args adv spurious fuel n s).store.listings
          ((runTx uploader ids args adv spurious fuel n
            s).idsAllocated.getLastD "") =
        some (mkListingData args
          ((runTx uploader ids args adv spurious fuel n
            s).idsAllocated.getLastD "") none) ∧
      (mkListingData args
          ((runTx uploader ids args adv spurious fuel n
            s).idsAllocated.getLastD "") none).listingId =
        (runTx uploader ids args adv spurious fuel n s).idsAllocated.getLastD
          "" := by
  intro fuel
  induction fuel with
  | zero =>
      intro n s h
      simp [runTx] at h
  | succ fuel ih =>
      intro n s hok
      have hu : uploadStep uploader args.image (ids n) = .ok none := by
        rw [himg]
        rfl
      rw [runTx, hu] at hok ⊢
      dsimp only at hok ⊢
      by_cases hcond :
          (hasConflict args.categories s (adv n s) || spurious n) = true
      · simp only [hcond, if_true] at hok ⊢
        obtain ⟨hne, hmem, hid⟩ := ih (n + 1) (adv n s) hok
        have hlast :
            (ids n :: (runTx uploader ids args adv spurious fuel (n + 1)
              (adv n s)).idsAllocated).getLastD "" =
            (runTx uploader ids args adv spurious fuel (n + 1)
              (adv n s)).idsAllocated.getLastD "" :=
          getLastD_cons_ne_nil _ _ _ hne
        refine ⟨by simp, ?_, ?_⟩
        · rw [hlast]
          exact hmem
        · rw [hlast]
          exact hid
      · simp only [Bool.not_eq_true] at hcond
        simp only [hcond, Bool.false_eq_true, if_false] at hok ⊢
        refine ⟨by simp, ?_, rfl⟩
        rw [show ([ids n].getLastD "") = ids n from rfl, commitWrites_eq,
            applyCatWrites_listings]
        simp [applyWrite]

/-- Successful-publish instance for C6: the committed listing document is
stored under the allocated id `L0` and carries `listingId = "L0"`, while the
call's result is the unit value. -/
theorem publish_returns_void_listing_holds_id_witness :
    (runTx okUploader demoIds demoArgs idAdv noSpurious 1 0
        demoStore).store.listings "L0" =
      some (mkListingData demoArgs "L0" none) := by
  have h := publish_returns_void_listing_holds_id okUploader demoIds demoArgs
    idAdv noSpurious rfl 1 0 demoStore rfl
  have h2 := h.2.1
  rw [show (runTx okUploader demoIds demoArgs idAdv noSpurious 1 0
      demoStore).idsAllocated.getLastD "" = "L0" from rfl] at h2
  exact h2

/-- C7 counterexample: a call violating every precondition (empty title,
price 0, empty category list, empty ownerId) is not rejected: it resolves
successfully and its listing document is committed to the store. -/
theorem invalid_input_still_commits :
    (runTx okUploader demoIds invalidArgs idAdv noSpurious 1 0
        demoStore).result = Except.ok () ∧
    (runTx okUploader demoIds invalidArgs idAdv noSpurious 1 0
        demoStore).store.listings "L0" =
      some (mkListingData invalidArgs "L0" none) := by
  exact ⟨rfl, by decide⟩

/-- C7 amended: `uploadListing` performs no input validation at all — for
any argument object, even one with an empty title, non-positive price,
empty category set and missing ownerId, the call (absent interference)
succeeds and writes the listing document as-is. -/
theorem no_input_validation
    (uploader : String → String → Except Unit String) (ids : Nat → String)
    (args : UploadArgs) (fuel n : Nat) (s : Store)
    (hfuel : 0 < fuel)
    (htitle : args.title = "") (hprice : args.price ≤ 0)
    (hcats : args.categories = []) (howner : args.sellerId = "")
    (himg : args.image = none) :
    (runTx uploader ids args idAdv noSpurious fuel n s).result =
      Except.ok () ∧
    (runTx uploader ids args idAdv noSpurious fuel n s).store.listings
        (ids n) = some (mkListingData args (ids n) none) := by
  cases fuel with
  | zero => exact absurd hfuel (by simp)
  | succ fuel =>
      have hu : uploadStep uploader args.image (ids n) = .ok none := by
        rw [himg]
        rfl
      rw [runTx, hu]
      dsimp only
      simp only [idAdv, noSpurious, hasConflict_self, Bool.or_false,
        Bool.false_eq_true, if_false]
      refine ⟨by trivial, ?_⟩
      rw [commitWrites_eq, applyCatWrites_listings]
      simp [applyWrite]

/-- Invalid-input instance for C7: the all-invalid argument object commits
its listing document into an empty store and resolves successfully. -/
theorem no_input_validation_witness :
    (runTx okUploader demoIds invalidArgs idAdv noSpurious 1 0
        emptyStore).result = Except.ok () ∧
    (runTx okUploader demoIds invalidArgs idAdv noSpurious 1 0
        emptyStore).store.listings "L0" =
      some (mkListingData invalidArgs "L0" none) := by
  have h := no_input_validation okUploader demoIds invalidArgs 1 0 emptyStore
    (by decide) rfl (by decide) rfl rfl rfl
  exact ⟨h.1, h.2⟩

/-- C8: for every collection state and excluded owner id, neither the
mapping built by `getAllListings` nor a snapshot delivered by
`createPostListingListener` contains a document whose `sellerId` equals the
excluded id; and when the collection's document ids are unique, so are the
keys of either result. -/
theorem owner_exclusion_filter (excl : String)
    (docs : List (String × ListingDoc)) :
    (∀ p ∈ getAllListings excl docs, p.2.sellerId ≠ excl) ∧
    (∀ p ∈ listenerSnapshot excl docs, p.2.sellerId ≠ excl) ∧
    ((docs.map Prod.fst).Nodup →
      ((getAllListings excl docs).map Prod.fst).Nodup) ∧
    ((docs.map Prod.fst).Nodup →
      ((listenerSnapshot excl docs).map Prod.fst).Nodup) := by
  refine ⟨?_, ?_, ?_, ?_⟩
  · intro p hp
    have h := List.of_mem_filter hp
    simpa using h
  · intro p hp
    have h := List.of_mem_filter hp
    simpa using h
  · intro h
    exact h.sublist ((List.filter_sublist docs).map Prod.fst)
  · intro h
    exact h.sublist ((List.filter_sublist docs).map Prod.fst)

/-- Concrete instance for C8: excluding owner `alice` from the demo
collection, bob's document survives with `sellerId ≠ "alice"`, the result
keys are unique, and both façade functions agree on the filtered result. -/
theorem owner_exclusion_filter_witness :
    bobDoc.sellerId ≠ "alice" ∧
    ((getAllListings "alice" demoDocs).map Prod.fst).Nodup ∧
    ((listenerSnapshot "alice" demoDocs).map Prod.fst).Nodup := by
  have h := owner_exclusion_filter "alice" demoDocs
  exact ⟨h.1 ("d2", bobDoc) (by decide), h.2.2.1 (by decide),
    h.2.2.2 (by decide)⟩

/-- C9 counterexample: `getUserProfile` catches store failures and returns
`null`, the very value it returns for an absent user — so for the
user-profile fetch a store failure is reported as absence, contradicting
the claim. -/
theorem store_failure_reported_as_absence :
    getUserProfile FetchOutcome.failure = none ∧
    getUserProfile FetchOutcome.missing = none := by
  exact ⟨rfl, rfl⟩

/-- C9 amended: `getDocument` does distinguish the three outcomes — absent
yields a normal `ok none` (not an error) and a store failure propagates as
an error (never as `none`) — but `getUserProfile` collapses store failure
into the same `null` as absence. -/
theorem point_lookup_absence_vs_failure {α : Type} (r : FetchOutcome α)
    (ru : FetchOutcome UserDoc) :
    (getDocument r = Except.ok none ↔ r = FetchOutcome.missing) ∧
    (getDocument r = Except.error () ↔ r = FetchOutcome.failure) ∧
    (getUserProfile ru = none ↔
      (ru = FetchOutcome.missing ∨ ru = FetchOutcome.failure)) := by
  refine ⟨?_, ?_, ?_⟩
  · cases r <;> simp [getDocument]
  · cases r <;> simp [getDocument]
  · cases ru <;> simp [getUserProfile]

end TreeListings
